import Mathlib

/-!
Verification of the capture-and-encode core of the pre-post repository.

The definitions below are a shallow embedding of the functions in
src/video.ts and src/upload.ts.  JavaScript numbers are modelled as
rationals (all quantities occurring here are exact in binary floating
point at the ranges involved), byte buffers as lists of naturals, and
the asynchronous Playwright page as a record of pure response functions
together with an explicit trace of the calls the code issues against it.
-/

/-- Rounding as in the JS function Math.round: the floor of x + 1/2,
so that halves round toward positive infinity. -/
def jsRound (x : ℚ) : ℤ := ⌊x + 1 / 2⌋

/-- Viewport size in device pixels (type ViewportSize of src/types.ts). -/
structure ViewportSize where
  width : ℤ
  height : ℤ
  deriving DecidableEq, Repr

/-- Options accepted by captureGif and captureVideo
(interface VideoOptions, src/video.ts lines 48-61). -/
structure VideoOptions where
  viewport : ViewportSize
  duration : Option ℚ := none
  fps : Option ℚ := none
  selector : Option String := none
  fullPage : Option Bool := none
  gifScale : Option ℚ := none

/-- RGBA pixel, 8 bits per channel. -/
abbrev Color := ℕ × ℕ × ℕ × ℕ

/-- Byte buffer (a JS Buffer or Uint8Array). -/
abbrev ByteBuf := List ℕ

/-- External decoder capability: decodePngToRgba (src/video.ts lines
321-361) hands a still to the browser canvas and receives raw RGBA
pixels at the target width and height.  Its browser side is external to
the repository, so it is kept abstract as a function parameter. -/
abbrev Decoder := ByteBuf → ℤ → ℤ → List Color

/-- Playwright page as consumed by captureGif: the pure responses of the
external renderer.  selectorCount models locator(sel).count();
screenshot models the i-th call of page.screenshot (screenshots are
indexed by temporal order of the calls). -/
structure RenderPage where
  selectorCount : String → ℕ
  screenshot : ℕ → ByteBuf

/-- Calls issued by captureGif against the Playwright page, in order
(page.goto, document.fonts readiness, locator count, scrollIntoView,
waitForTimeout, page.screenshot). -/
inductive PageCall where
  | pageGoto : PageCall
  | fontsReady : PageCall
  | locatorCount : String → PageCall
  | scrollIntoView : String → PageCall
  | waitTimeout : ℤ → PageCall
  | screenshot : ℕ → PageCall
  deriving DecidableEq, Repr

/-- Modelled from the spec: the quantize function of the third-party
gifenc library (required in src/video.ts lines 22-30, not part of this
repository).  Per its contract and section 4.2 of the spec it returns a
palette of at most maxColors colors derived from the pixel data of its
argument.  The model takes the distinct colors of the data, truncated
to maxColors entries; the claims settled below depend only on the facts
that the palette is derived from the argument data alone and has at
most maxColors entries. -/
def quantize (data : List Color) (maxColors : ℕ) : List Color :=
  data.dedup.take maxColors

/-- Squared Euclidean distance between two RGBA colors. -/
def colorDist (a b : Color) : ℤ :=
  ((a.1 : ℤ) - b.1) * ((a.1 : ℤ) - b.1) + ((a.2.1 : ℤ) - b.2.1) * ((a.2.1 : ℤ) - b.2.1) +
    ((a.2.2.1 : ℤ) - b.2.2.1) * ((a.2.2.1 : ℤ) - b.2.2.1) +
    ((a.2.2.2 : ℤ) - b.2.2.2) * ((a.2.2.2 : ℤ) - b.2.2.2)

/-- Helper for nearestIndex: scan the remaining palette entries keeping
the index of the closest entry seen so far (ties keep the earlier
index, because only a strictly smaller distance replaces it). -/
def nearestIndexGo (c : Color) : List Color → ℕ → ℤ → ℕ → ℕ
  | [], bestIdx, _, _ => bestIdx
  | p :: rest, bestIdx, bestDist, i =>
    if colorDist p c < bestDist then nearestIndexGo c rest i (colorDist p c) (i + 1)
    else nearestIndexGo c rest bestIdx bestDist (i + 1)

/-- Index of the palette entry nearest to c by Euclidean color
distance, ties broken by lowest palette index (section 4.2 of the
spec). -/
def nearestIndex (palette : List Color) (c : Color) : ℕ :=
  match palette with
  | [] => 0
  | p :: rest => nearestIndexGo c rest 0 (colorDist p c) 1

/-- Modelled from the spec: the applyPalette function of the
third-party gifenc library (required in src/video.ts lines 22-30, not
part of this repository).  Per its contract and section 4.2 of the
spec it maps every pixel of the data to the index of its nearest
palette entry. -/
def applyPalette (data : List Color) (palette : List Color) : List ℕ :=
  data.map (nearestIndex palette)

/-- Record of one encoder.writeFrame call (src/video.ts lines 286-291):
the indexed pixel buffer, the frame width and height, the per-frame
palette, the delay in centiseconds, the repeat flag and the disposal
value passed to gifenc.  The GIF bitstream serialization performed
inside gifenc is external to the repository; the encoded clip is
modelled as the ordered list of these frame records. -/
structure EncodedFrame where
  indexed : List ℕ
  width : ℤ
  height : ℤ
  palette : List Color
  delay : ℤ
  repeatCount : ℤ
  dispose : ℤ
  deriving DecidableEq, Repr

/-- Body of the encoding loop of encodeGif (src/video.ts lines
278-292): for each frame, decode the still to RGBA at the scaled GIF
resolution, quantize that single frame to a palette of at most 256
colors, map the frame to palette indices, and write the frame with the
constant delay; the first frame gets dispose -1 and later frames
dispose 0.  The counter i carries the loop index. -/
def encodeFrames (decode : Decoder) (gifWidth gifHeight delay : ℤ) :
    ℕ → List ByteBuf → List EncodedFrame
  | _, [] => []
  | i, f :: rest =>
    let rgba := decode f gifWidth gifHeight
    let palette := quantize rgba 256
    let indexed := applyPalette rgba palette
    { indexed := indexed, width := gifWidth, height := gifHeight,
      palette := palette, delay := delay, repeatCount := 0,
      dispose := if i = 0 then -1 else 0 } :: encodeFrames decode gifWidth gifHeight delay (i + 1) rest

/-- Embedding of encodeGif (src/video.ts lines 258-296): compute the
GIF dimensions by scaling the viewport, compute the constant
centisecond delay round(1000 / fps / 10), and encode every frame. -/
def encodeGif (decode : Decoder) (frames : List ByteBuf) (viewport : ViewportSize)
    (fps scale : ℚ) : List EncodedFrame :=
  encodeFrames decode (jsRound ((viewport.width : ℚ) * scale))
    (jsRound ((viewport.height : ℚ) * scale)) (jsRound (1000 / fps / 10)) 0 frames

/-- Result of captureGif (interface VideoResult, src/video.ts lines
63-78), with the gif buffer represented by the list of frames written
to the encoder. -/
structure VideoResult where
  gif : List EncodedFrame
  viewport : ViewportSize
  url : String
  duration : ℚ
  frameCount : ℕ
  selector : Option String
  deriving DecidableEq

/-- Effective duration: options.duration with default 2
(src/video.ts line 112). -/
def effDuration (o : VideoOptions) : ℚ := o.duration.getD 2

/-- Effective fps: options.fps with default 8 (src/video.ts line 113). -/
def effFps (o : VideoOptions) : ℚ := o.fps.getD 8

/-- Effective gif scale: options.gifScale with default 0.5
(src/video.ts line 114). -/
def effScale (o : VideoOptions) : ℚ := o.gifScale.getD (1 / 2)

/-- Number of loop iterations: totalFrames = Math.ceil(duration * fps)
(src/video.ts line 115); a non-positive ceiling runs the JS for loop
zero times, matching toNat. -/
def totalFramesOf (o : VideoOptions) : ℕ := (Int.ceil (effDuration o * effFps o)).toNat

/-- Inter-frame pacing: frameDelay = Math.round(1000 / fps)
(src/video.ts line 116).  The JS value at fps = 0 is Infinity; the
model returns jsRound 0 there, which is only ever used when the frame
loop runs at least twice, hence never at fps = 0 (zero iterations). -/
def frameDelayOf (o : VideoOptions) : ℤ := jsRound (1000 / effFps o)

/-- Frame capture loop of captureGif (src/video.ts lines 134-141),
written with the remaining iteration count k as the recursion argument
and i the current loop index: each iteration takes one screenshot and,
except after the last frame (k = 0 after this one), waits frameDelay
milliseconds.  Returns the captured frame buffers and the trace of page
calls. -/
def frameLoop (pg : RenderPage) (frameDelay : ℤ) : ℕ → ℕ → List ByteBuf × List PageCall
  | _, 0 => ([], [])
  | i, k + 1 =>
    let rest := frameLoop pg frameDelay (i + 1) k
    (pg.screenshot i :: rest.1,
      (PageCall.screenshot i :: if k = 0 then [] else [PageCall.waitTimeout frameDelay]) ++ rest.2)

/-- Embedding of captureGif (src/video.ts lines 107-158): read the
options with their defaults, navigate and wait for fonts, check the
selector when one is configured (zero matches throws the template
string of line 127 before any frame is captured), run the frame loop,
encode the frames, and return the VideoResult of lines 149-157.
Returns the outcome together with the ordered trace of page calls. -/
def captureGif (decode : Decoder) (pg : RenderPage) (url : String) (o : VideoOptions) :
    Except String VideoResult × List PageCall :=
  let totalFrames := totalFramesOf o
  let frameDelay := frameDelayOf o
  let pre := [PageCall.pageGoto, PageCall.fontsReady]
  let capture : List PageCall → Except String VideoResult × List PageCall := fun calls =>
    let lp := frameLoop pg frameDelay 0 totalFrames
    (Except.ok
      { gif := encodeGif decode lp.1 o.viewport (effFps o) (effScale o),
        viewport := o.viewport,
        url := url,
        duration := effDuration o,
        frameCount := lp.1.length,
        selector := o.selector },
      calls ++ lp.2)
  match o.selector with
  | some sel =>
    if pg.selectorCount sel = 0 then
      (Except.error ("Element not found: " ++ sel), pre ++ [PageCall.locatorCount sel])
    else
      capture (pre ++ [PageCall.locatorCount sel, PageCall.scrollIntoView sel,
        PageCall.waitTimeout 100])
  | none => capture pre

/-- Playwright page configuration requested by captureVideo for the
screenshot path (src/video.ts lines 396-399). -/
structure PageConfig where
  viewport : ViewportSize
  deviceScaleFactor : ℤ
  deriving DecidableEq, Repr

/-- Embedding of the default (FFmpeg absent) branch of captureVideo
(src/video.ts lines 384-406): open a new page configured with exactly
options.viewport at deviceScaleFactor 2 and run captureGif on it.
Returns the page configuration together with the captureGif outcome. -/
def captureVideo (decode : Decoder) (pg : RenderPage) (url : String) (o : VideoOptions) :
    PageConfig × (Except String VideoResult × List PageCall) :=
  ({ viewport := o.viewport, deviceScaleFactor := 2 }, captureGif decode pg url o)

/-- Outcome of uploadGitNative: the returned record of src/upload.ts
line 131 plus the destination path and the bytes written to it. -/
structure UploadOut where
  filename : String
  ownerRepo : String
  dest : String
  written : ByteBuf
  deriving DecidableEq

/-- Environment of uploadGitNative: the repo root reported by git and
the outcome of resolveOwnerRepo (src/upload.ts lines 93-111, whose git
and environment queries are external effects). -/
structure GitCtx where
  repoRoot : String
  ownerRepo : Except String String

/-- Embedding of uploadGitNative (src/upload.ts lines 117-132): resolve
the owner and repo (propagating the resolveOwnerRepo failure), write
the image bytes unchanged to .pre-post/filename under the repo root,
stage the file, and return the filename and ownerRepo.  The image
buffer itself is never inspected. -/
def uploadGitNative (ctx : GitCtx) (image : ByteBuf) (filename : String) :
    Except String UploadOut :=
  match ctx.ownerRepo with
  | Except.error e => Except.error e
  | Except.ok owner =>
    Except.ok
      { filename := filename, ownerRepo := owner,
        dest := ctx.repoRoot ++ "/.pre-post/" ++ filename, written := image }

/-!
Concrete test vectors used by the witness and counterexample theorems
below.
-/

/-- Decoder stub returning a single black pixel for every still. -/
def decode0 : Decoder := fun _ _ _ => [(0, 0, 0, 255)]

/-- Decoder stub mapping the one-byte still [0] to a single red pixel
and any other still to a single green pixel. -/
def decode2 : Decoder := fun b _ _ =>
  if b = [0] then [(255, 0, 0, 255)] else [(0, 255, 0, 255)]

/-- Renderer stub whose screenshot is byte-identical on every call and
whose selectors always match one element. -/
def pgStill : RenderPage := { selectorCount := fun _ => 1, screenshot := fun _ => [0] }

/-- Renderer stub on which every selector reports zero matches. -/
def pgNoMatch : RenderPage := { selectorCount := fun _ => 0, screenshot := fun _ => [0] }

/-- Options with duration 2 and fps 8 (totalFrames 16). -/
def optsC1 : VideoOptions := { viewport := ⟨10, 10⟩, duration := some 2, fps := some 8 }

/-- Options with duration 1/4 and fps 8 (totalFrames 2). -/
def optsC3 : VideoOptions := { viewport := ⟨2, 2⟩, duration := some (1 / 4), fps := some 8 }

/-- Options with duration 15 (above the interval the claim says is
clamped to) and fps 1. -/
def optsC5a : VideoOptions := { viewport := ⟨2, 2⟩, duration := some 15, fps := some 1 }

/-- Options with fps 0 (below the interval the claim says is clamped
to). -/
def optsC5b : VideoOptions := { viewport := ⟨2, 2⟩, duration := some 1, fps := some 0 }

/-- Options with duration 1 and fps 2 (totalFrames 2). -/
def optsC6 : VideoOptions := { viewport := ⟨4, 4⟩, duration := some 1, fps := some 2 }

/-- Options configuring a selector that will not match. -/
def optsC7 : VideoOptions := { viewport := ⟨2, 2⟩, selector := some "#missing" }

/-- Options with the mobile viewport 375 x 812 of the claim and
gifScale 1 so the encoded frame dimensions equal the effective capture
dimensions. -/
def optsC8 : VideoOptions :=
  { viewport := ⟨375, 812⟩, duration := some (1 / 8), fps := some 8, gifScale := some 1 }

/-- Upload environment in which the owner and repo resolve. -/
def ctx0 : GitCtx := { repoRoot := "/repo", ownerRepo := Except.ok "owner/repo" }

/-- Byte buffer of 12,000,000 bytes, exceeding 10 MiB. -/
def img12M : ByteBuf := List.replicate 12000000 0

/-- First frame written by encodeGif for decode0, one still, viewport
2 x 2, fps 8, scale 1. -/
def ef0 : EncodedFrame :=
  { indexed := [0], width := jsRound (((2 : ℤ) : ℚ) * 1), height := jsRound (((2 : ℤ) : ℚ) * 1),
    palette := [(0, 0, 0, 255)], delay := jsRound (1000 / (8 : ℚ) / 10),
    repeatCount := 0, dispose := -1 }

/-!
Helper lemmas about the frame loop, the encoder and the quantizer
model.
-/

theorem frameLoop_fst_length (pg : RenderPage) (d : ℤ) (k : ℕ) :
    ∀ i, (frameLoop pg d i k).1.length = k := by
  induction k with
  | zero => intro i; rfl
  | succ k ih => intro i; simp [frameLoop, ih]

theorem frameLoop_snd_count (pg : RenderPage) (d : ℤ) (k : ℕ) :
    ∀ i, ((frameLoop pg d i k).2.count (PageCall.waitTimeout d)) = k - 1 := by
  induction k with
  | zero => intro i; rfl
  | succ k ih =>
    intro i
    cases k with
    | zero => simp [frameLoop, List.count_cons]
    | succ m =>
      have hm := ih (i + 1)
      by_cases h0 : m = 0
      · subst h0; simp [frameLoop, List.count_cons]
      · simp [frameLoop, List.count_append, List.count_cons, h0] at hm ⊢
        omega

theorem encodeFrames_length (decode : Decoder) (w h dl : ℤ) (fs : List ByteBuf) :
    ∀ i, (encodeFrames decode w h dl i fs).length = fs.length := by
  induction fs with
  | nil => intro i; rfl
  | cons f rest ih => intro i; simp [encodeFrames, ih]

theorem encodeFrames_map_dims (decode : Decoder) (w h dl : ℤ) (fs : List ByteBuf) :
    ∀ i, (encodeFrames decode w h dl i fs).map (fun ef => (ef.width, ef.height)) =
      List.replicate fs.length (w, h) := by
  induction fs with
  | nil => intro i; rfl
  | cons f rest ih => intro i; simp [encodeFrames, ih, List.replicate_succ]

theorem encodeFrames_map_delay (decode : Decoder) (w h dl : ℤ) (fs : List ByteBuf) :
    ∀ i, (encodeFrames decode w h dl i fs).map EncodedFrame.delay =
      List.replicate fs.length dl := by
  induction fs with
  | nil => intro i; rfl
  | cons f rest ih => intro i; simp [encodeFrames, ih, List.replicate_succ]

theorem encodeFrames_mem (decode : Decoder) (w h dl : ℤ) (fs : List ByteBuf) :
    ∀ i ef, ef ∈ encodeFrames decode w h dl i fs →
      ef.width = w ∧ ef.height = h ∧ ef.delay = dl ∧
      ∃ f ∈ fs, ef.palette = quantize (decode f w h) 256 ∧
        ef.indexed = applyPalette (decode f w h) (quantize (decode f w h) 256) := by
  induction fs with
  | nil => intro i ef hef; simp [encodeFrames] at hef
  | cons f rest ih =>
    intro i ef hef
    simp only [encodeFrames] at hef
    rcases List.mem_cons.mp hef with h1 | h2
    · subst h1
      exact ⟨rfl, rfl, rfl, f, List.mem_cons_self f rest, rfl, rfl⟩
    · obtain ⟨hw, hh, hd2, g, hg, hpal, hidx⟩ := ih (i + 1) ef h2
      exact ⟨hw, hh, hd2, g, List.mem_cons_of_mem f hg, hpal, hidx⟩

theorem quantize_length_le (data : List Color) (m : ℕ) : (quantize data m).length ≤ m := by
  simp [quantize, List.length_take]

theorem quantize_ne_nil (data : List Color) (h : data ≠ []) : quantize data 256 ≠ [] := by
  simp [quantize, List.take_eq_nil_iff, List.dedup_eq_nil, h]

theorem nearestIndexGo_lt (c : Color) (l : List Color) :
    ∀ b dist i, b < i → nearestIndexGo c l b dist i < i + l.length := by
  induction l with
  | nil => intro b dist i hb; simpa [nearestIndexGo] using hb
  | cons p rest ih =>
    intro b dist i hb
    rw [nearestIndexGo]
    split
    · have h2 := ih i (colorDist p c) (i + 1) (Nat.lt_succ_self i)
      simp only [List.length_cons]
      omega
    · have h2 := ih b dist (i + 1) (by omega)
      simp only [List.length_cons]
      omega

theorem nearestIndex_lt (palette : List Color) (c : Color) (h : palette ≠ []) :
    nearestIndex palette c < palette.length := by
  cases palette with
  | nil => exact absurd rfl h
  | cons p rest =>
    have h2 := nearestIndexGo_lt c rest 0 (colorDist p c) 1 Nat.one_pos
    simp only [nearestIndex, List.length_cons]
    omega

theorem applyPalette_quantize_lt (rgba : List Color) :
    ∀ j ∈ applyPalette rgba (quantize rgba 256), j < (quantize rgba 256).length := by
  intro j hj
  rcases eq_or_ne rgba ([] : List Color) with h | h
  · subst h; simp [applyPalette] at hj
  · obtain ⟨c, _, rfl⟩ := List.mem_map.mp hj
    exact nearestIndex_lt _ c (quantize_ne_nil rgba h)

theorem captureGif_none (decode : Decoder) (pg : RenderPage) (url : String)
    (o : VideoOptions) (h : o.selector = none) :
    captureGif decode pg url o =
      (Except.ok
        { gif := encodeGif decode (frameLoop pg (frameDelayOf o) 0 (totalFramesOf o)).1
            o.viewport (effFps o) (effScale o),
          viewport := o.viewport, url := url, duration := effDuration o,
          frameCount := (frameLoop pg (frameDelayOf o) 0 (totalFramesOf o)).1.length,
          selector := o.selector },
        [PageCall.pageGoto, PageCall.fontsReady] ++
          (frameLoop pg (frameDelayOf o) 0 (totalFramesOf o)).2) := by
  unfold captureGif
  rw [h]

theorem captureGif_some_found (decode : Decoder) (pg : RenderPage) (url : String)
    (o : VideoOptions) (sel : String) (h : o.selector = some sel)
    (hc : pg.selectorCount sel ≠ 0) :
    captureGif decode pg url o =
      (Except.ok
        { gif := encodeGif decode (frameLoop pg (frameDelayOf o) 0 (totalFramesOf o)).1
            o.viewport (effFps o) (effScale o),
          viewport := o.viewport, url := url, duration := effDuration o,
          frameCount := (frameLoop pg (frameDelayOf o) 0 (totalFramesOf o)).1.length,
          selector := o.selector },
        [PageCall.pageGoto, PageCall.fontsReady, PageCall.locatorCount sel,
          PageCall.scrollIntoView sel, PageCall.waitTimeout 100] ++
          (frameLoop pg (frameDelayOf o) 0 (totalFramesOf o)).2) := by
  unfold captureGif
  rw [h]
  simp [hc]

theorem captureGif_some_missing (decode : Decoder) (pg : RenderPage) (url : String)
    (o : VideoOptions) (sel : String) (h : o.selector = some sel)
    (hc : pg.selectorCount sel = 0) :
    captureGif decode pg url o =
      (Except.error ("Element not found: " ++ sel),
        [PageCall.pageGoto, PageCall.fontsReady, PageCall.locatorCount sel]) := by
  unfold captureGif
  rw [h]
  simp [hc]

/-!
Claim theorems.
-/

/-- C1 (amended): the capture loop of captureGif performs no settle
detection: no frame comparison occurs, and the number of captured
frames always equals totalFrames = ceil(duration * fps) — in
particular, a renderer stub returning byte-identical stills on every
call still yields totalFrames captured frames, never 4. -/
theorem C1_no_settle_detection (decode : Decoder) (pg : RenderPage) (url : String)
    (o : VideoOptions) (_hstill : ∀ i j, pg.screenshot i = pg.screenshot j)
    (hsel : ∀ s, o.selector = some s → pg.selectorCount s ≠ 0) :
    (captureGif decode pg url o).1.map VideoResult.frameCount =
      Except.ok (totalFramesOf o) := by
  cases ho : o.selector with
  | none =>
    rw [captureGif_none decode pg url o ho]
    simp [Except.map, frameLoop_fst_length]
  | some sel =>
    rw [captureGif_some_found decode pg url o sel ho (hsel sel ho)]
    simp [Except.map, frameLoop_fst_length]

/-- Witness for C1 at the renderer stub pgStill that returns
byte-identical stills on every call. -/
theorem C1_witness :
    (captureGif decode0 pgStill "u" optsC1).1.map VideoResult.frameCount =
      Except.ok (totalFramesOf optsC1) :=
  C1_no_settle_detection decode0 pgStill "u" optsC1 (fun _ _ => rfl)
    (fun s hs => by simp [optsC1] at hs)

/-- C1 counterexample: with the renderer stub pgStill returning
byte-identical stills on every call, duration 2 and fps 8, captureGif
captures 16 frames, not the 4 the claim requires. -/
theorem C1_counterexample :
    (captureGif decode0 pgStill "u" optsC1).1.map VideoResult.frameCount =
      Except.ok 16 ∧ (16 : ℕ) ≠ 4 := by
  constructor
  · rw [captureGif_none decode0 pgStill "u" optsC1 rfl]
    simp only [Except.map, frameLoop_fst_length]
    norm_num [totalFramesOf, effDuration, effFps, optsC1]
    rfl
  · decide

/-- C2 (amended): encodeGif builds a separate palette for every frame
from that frame alone (a local palette per frame, not one palette built
from the whole sequence and shared by the clip); each per-frame palette
has at most 256 entries and every index in a frame is strictly less
than the length of that frame's own palette. -/
theorem C2_per_frame_palette (decode : Decoder) (frames : List ByteBuf)
    (vp : ViewportSize) (fps scale : ℚ) (ef : EncodedFrame)
    (hef : ef ∈ encodeGif decode frames vp fps scale) :
    ef.palette.length ≤ 256 ∧ (∀ j ∈ ef.indexed, j < ef.palette.length) ∧
      ∃ f ∈ frames,
        ef.palette =
          quantize (decode f (jsRound ((vp.width : ℚ) * scale))
            (jsRound ((vp.height : ℚ) * scale))) 256 ∧
        ef.indexed =
          applyPalette (decode f (jsRound ((vp.width : ℚ) * scale))
            (jsRound ((vp.height : ℚ) * scale))) ef.palette := by
  unfold encodeGif at hef
  obtain ⟨hw, hh, hd, f, hf, hpal, hidx⟩ := encodeFrames_mem _ _ _ _ frames 0 ef hef
  refine ⟨?_, ?_, f, hf, hpal, ?_⟩
  · rw [hpal]; exact quantize_length_le _ _
  · intro j hj
    rw [hidx] at hj
    rw [hpal]
    exact applyPalette_quantize_lt _ j hj
  · rw [hpal]; exact hidx

/-- Witness for C2 at the first (and only) frame written for a single
black still. -/
theorem C2_witness :
    ef0.palette.length ≤ 256 ∧ (∀ j ∈ ef0.indexed, j < ef0.palette.length) ∧
      ∃ f ∈ [[(0 : ℕ)]],
        ef0.palette =
          quantize (decode0 f (jsRound (((2 : ℤ) : ℚ) * 1))
            (jsRound (((2 : ℤ) : ℚ) * 1))) 256 ∧
        ef0.indexed =
          applyPalette (decode0 f (jsRound (((2 : ℤ) : ℚ) * 1))
            (jsRound (((2 : ℤ) : ℚ) * 1))) ef0.palette :=
  C2_per_frame_palette decode0 [[0]] ⟨2, 2⟩ 8 1 ef0
    (show ef0 ∈ [ef0] from List.mem_singleton.mpr rfl)

/-- C2 counterexample: a clip of two stills with disjoint colors is
encoded with two different palettes, one per frame, so no single
palette is shared by every frame of the clip. -/
theorem C2_counterexample :
    (encodeGif decode2 [[0], [1]] ⟨2, 2⟩ 8 1).map EncodedFrame.palette =
      [[(255, 0, 0, 255)], [(0, 255, 0, 255)]] ∧
      ([(255, 0, 0, 255)] : List Color) ≠ [(0, 255, 0, 255)] := by
  exact ⟨rfl, by decide⟩

/-- C3 (amended): encodeGif performs no run coalescing: every captured
frame is written as its own displayed frame (one encoded frame per
captured frame, byte-identical consecutive frames included), every
frame carries the same delay round(1000 / fps / 10) centiseconds with
no minimum applied, and a fully static capture of n frames therefore
yields n encoded frames rather than one. -/
theorem C3_no_coalescing (decode : Decoder) (frames : List ByteBuf) (vp : ViewportSize)
    (fps scale : ℚ) :
    (encodeGif decode frames vp fps scale).length = frames.length ∧
      (encodeGif decode frames vp fps scale).map EncodedFrame.delay =
        List.replicate frames.length (jsRound (1000 / fps / 10)) := by
  unfold encodeGif
  exact ⟨encodeFrames_length _ _ _ _ frames 0, encodeFrames_map_delay _ _ _ _ frames 0⟩

/-- C3 counterexample: a fully static capture of duration 1/4 s at fps
8 (two byte-identical frames) is encoded as two frames of delay 13
centiseconds each, not as one coalesced frame carrying the full capture
duration. -/
theorem C3_counterexample :
    (captureGif decode0 pgStill "u" optsC3).1.map (fun r => r.gif.map EncodedFrame.delay) =
      Except.ok [13, 13] ∧ ([13, 13] : List ℤ).length ≠ 1 := by
  constructor
  · rw [captureGif_none decode0 pgStill "u" optsC3 rfl]
    have h1 : totalFramesOf optsC3 = 2 := by
      norm_num [totalFramesOf, effDuration, effFps, optsC3]
      rfl
    have h2 : jsRound (1000 / effFps optsC3 / 10) = 13 := by
      norm_num [jsRound, effFps, optsC3]
    simp [Except.map, encodeGif, encodeFrames_map_delay, frameLoop_fst_length, h1, h2,
      List.replicate]
  · decide

/-- C4 (amended): no size guard runs after encoding: uploadGitNative
never inspects the byte length of the artifact, returning success with
the bytes written unchanged (never truncated or downscaled) whenever
the owner and repo resolve, for artifacts of any size. -/
theorem C4_no_size_guard (ctx : GitCtx) (image : ByteBuf) (filename : String)
    (owner : String) (h : ctx.ownerRepo = Except.ok owner) :
    uploadGitNative ctx image filename =
      Except.ok
        { filename := filename, ownerRepo := owner,
          dest := ctx.repoRoot ++ "/.pre-post/" ++ filename, written := image } := by
  unfold uploadGitNative
  rw [h]

/-- Witness for C4 at a one-byte artifact in a resolving environment. -/
theorem C4_witness :
    uploadGitNative ctx0 [0] "a.gif" =
      Except.ok
        { filename := "a.gif", ownerRepo := "owner/repo",
          dest := ctx0.repoRoot ++ "/.pre-post/" ++ "a.gif", written := [0] } :=
  C4_no_size_guard ctx0 [0] "a.gif" "owner/repo" rfl

/-- C4 counterexample: an encoder output of 12,000,000 bytes (over the
10 MiB limit of the claim) is accepted by uploadGitNative without any
error; in particular no error message mentioning the measured size is
produced. -/
theorem C4_counterexample :
    uploadGitNative ctx0 img12M "clip.gif" =
      Except.ok
        { filename := "clip.gif", ownerRepo := "owner/repo",
          dest := "/repo" ++ "/.pre-post/" ++ "clip.gif", written := img12M } ∧
      img12M.length = 12000000 ∧ 10 * 1024 * 1024 < 12000000 := by
  refine ⟨rfl, ?_, by decide⟩
  show (List.replicate 12000000 0).length = 12000000
  rw [List.length_replicate]

/-- C5 (amended): captureGif applies no clamping and no validation to
its configuration: duration and fps are used exactly as supplied (the
defaults 2 and 8 apply only when a field is omitted), so duration 15
yields a 15-second capture of ceil(15 * fps) frames rather than being
clamped to 10, and fps 0 yields 0 captured frames rather than a
clamped rate of 1.  Range checks exist only in the CLI, which exits
with an error instead of clamping. -/
theorem C5_no_clamping (decode : Decoder) (pg : RenderPage) (url : String)
    (o : VideoOptions) (d f : ℚ) (hd : o.duration = some d) (hf : o.fps = some f)
    (hsel : o.selector = none) :
    (captureGif decode pg url o).1.map (fun r => (r.duration, r.frameCount)) =
      Except.ok (d, (Int.ceil (d * f)).toNat) := by
  rw [captureGif_none decode pg url o hsel]
  simp [Except.map, frameLoop_fst_length, totalFramesOf, effDuration, effFps, hd, hf]

/-- Witness for C5 at duration 15 and fps 1. -/
theorem C5_witness :
    (captureGif decode0 pgStill "u" optsC5a).1.map (fun r => (r.duration, r.frameCount)) =
      Except.ok ((15 : ℚ), (Int.ceil ((15 : ℚ) * 1)).toNat) :=
  C5_no_clamping decode0 pgStill "u" optsC5a 15 1 rfl rfl rfl

/-- C5 counterexample: duration 15 is not clamped to 10 (the result
reports duration 15 and 15 captured frames at fps 1), and fps 0 is not
clamped to 1 (0 frames are captured instead of ceil(duration * 1)). -/
theorem C5_counterexample :
    (captureGif decode0 pgStill "u" optsC5a).1.map (fun r => (r.duration, r.frameCount)) =
      Except.ok ((15 : ℚ), 15) ∧
    (captureGif decode0 pgStill "u" optsC5b).1.map VideoResult.frameCount =
      Except.ok 0 ∧
    (15 : ℚ) ≠ 10 ∧ (0 : ℕ) ≠ 1 := by
  refine ⟨?_, ?_, by norm_num, by decide⟩
  · rw [captureGif_none decode0 pgStill "u" optsC5a rfl]
    have h1 : totalFramesOf optsC5a = 15 := by
      norm_num [totalFramesOf, effDuration, effFps, optsC5a]
      rfl
    have h2 : effDuration optsC5a = 15 := rfl
    simp [Except.map, frameLoop_fst_length, h1, h2]
  · rw [captureGif_none decode0 pgStill "u" optsC5b rfl]
    have h1 : totalFramesOf optsC5b = 0 := by
      norm_num [totalFramesOf, effDuration, effFps, optsC5b]
    simp [Except.map, frameLoop_fst_length, h1]

/-- C6: captureGif computes totalFrames = ceil(duration * fps) and
frameIntervalMs = round(1000 / fps), captures exactly (hence at most)
totalFrames frames, issues the inter-frame wait after every frame
except the last (totalFrames - 1 waits), and for every valid
configuration (positive duration and fps, satisfiable selector) the
captured frame count lies between 1 and ceil(duration * fps)
inclusive. -/
theorem C6_frame_acquisition (decode : Decoder) (pg : RenderPage) (url : String)
    (o : VideoOptions) (hsel : ∀ s, o.selector = some s → pg.selectorCount s ≠ 0)
    (hd : 0 < effDuration o) (hf : 0 < effFps o) :
    totalFramesOf o = (Int.ceil (effDuration o * effFps o)).toNat ∧
    frameDelayOf o = jsRound (1000 / effFps o) ∧
    (captureGif decode pg url o).1.map VideoResult.frameCount =
      Except.ok (totalFramesOf o) ∧
    1 ≤ totalFramesOf o ∧
    (o.selector = none →
      (captureGif decode pg url o).2.count (PageCall.waitTimeout (frameDelayOf o)) =
        totalFramesOf o - 1) := by
  have hpos : 1 ≤ totalFramesOf o := by
    have hc : (0 : ℤ) < Int.ceil (effDuration o * effFps o) :=
      Int.ceil_pos.mpr (mul_pos hd hf)
    unfold totalFramesOf
    omega
  refine ⟨rfl, rfl, ?_, hpos, ?_⟩
  · cases ho : o.selector with
    | none =>
      rw [captureGif_none decode pg url o ho]
      simp [Except.map, frameLoop_fst_length]
    | some sel =>
      rw [captureGif_some_found decode pg url o sel ho (hsel sel ho)]
      simp [Except.map, frameLoop_fst_length]
  · intro ho
    rw [captureGif_none decode pg url o ho]
    simp [List.count_append, List.count_cons, frameLoop_snd_count]

/-- Witness for C6 at duration 1 and fps 2 on the stub renderer. -/
theorem C6_witness :
    totalFramesOf optsC6 = (Int.ceil (effDuration optsC6 * effFps optsC6)).toNat ∧
    frameDelayOf optsC6 = jsRound (1000 / effFps optsC6) ∧
    (captureGif decode0 pgStill "u" optsC6).1.map VideoResult.frameCount =
      Except.ok (totalFramesOf optsC6) ∧
    1 ≤ totalFramesOf optsC6 ∧
    (optsC6.selector = none →
      (captureGif decode0 pgStill "u" optsC6).2.count
          (PageCall.waitTimeout (frameDelayOf optsC6)) = totalFramesOf optsC6 - 1) :=
  C6_frame_acquisition decode0 pgStill "u" optsC6
    (fun s hs => by simp [optsC6] at hs)
    (by norm_num [effDuration, optsC6])
    (by norm_num [effFps, optsC6])

/-- C7: when a selector is configured and its visible-element count is
zero, captureGif raises the fatal selector-not-found error before any
frame is captured, and the still-capture method of the renderer is
never invoked (no screenshot call appears in the page trace). -/
theorem C7_selector_not_found (decode : Decoder) (pg : RenderPage) (url : String)
    (o : VideoOptions) (sel : String) (hsel : o.selector = some sel)
    (hzero : pg.selectorCount sel = 0) :
    (captureGif decode pg url o).1 = Except.error ("Element not found: " ++ sel) ∧
      ∀ i, PageCall.screenshot i ∉ (captureGif decode pg url o).2 := by
  rw [captureGif_some_missing decode pg url o sel hsel hzero]
  refine ⟨rfl, ?_⟩
  intro i
  simp

/-- Witness for C7 at the selector "#missing" on a renderer stub that
reports zero matches for every selector. -/
theorem C7_witness :
    (captureGif decode0 pgNoMatch "u" optsC7).1 =
      Except.error ("Element not found: " ++ "#missing") ∧
      ∀ i, PageCall.screenshot i ∉ (captureGif decode0 pgNoMatch "u" optsC7).2 :=
  C7_selector_not_found decode0 pgNoMatch "u" optsC7 "#missing" rfl rfl

/-- C8 (amended): no mobile-size override exists: captureVideo opens
its page with the configured viewport unchanged (at deviceScaleFactor
2), captureGif reports that viewport unchanged in the result, and every
captured frame is encoded at round(dimension * gifScale) computed from
the unclamped viewport; in particular width 375 with height 812 keeps
effective capture height 812 rather than 667, and 1280 x 900 is
likewise passed through unchanged. -/
theorem C8_no_mobile_override (decode : Decoder) (pg : RenderPage) (url : String)
    (o : VideoOptions) (hsel : o.selector = none) :
    (captureVideo decode pg url o).1 = { viewport := o.viewport, deviceScaleFactor := 2 } ∧
    (captureVideo decode pg url o).2.1.map VideoResult.viewport = Except.ok o.viewport ∧
    (captureVideo decode pg url o).2.1.map
        (fun r => r.gif.map (fun ef => (ef.width, ef.height))) =
      Except.ok (List.replicate (totalFramesOf o)
        (jsRound ((o.viewport.width : ℚ) * effScale o),
          jsRound ((o.viewport.height : ℚ) * effScale o))) := by
  unfold captureVideo
  refine ⟨rfl, ?_, ?_⟩
  · rw [captureGif_none decode pg url o hsel]
    simp [Except.map]
  · rw [captureGif_none decode pg url o hsel]
    simp [Except.map, encodeGif, encodeFrames_map_dims, frameLoop_fst_length]

/-- Witness for C8 at the 375 x 812 mobile viewport of the claim. -/
theorem C8_witness :
    (captureVideo decode0 pgStill "u" optsC8).1 =
      { viewport := optsC8.viewport, deviceScaleFactor := 2 } ∧
    (captureVideo decode0 pgStill "u" optsC8).2.1.map VideoResult.viewport =
      Except.ok optsC8.viewport ∧
    (captureVideo decode0 pgStill "u" optsC8).2.1.map
        (fun r => r.gif.map (fun ef => (ef.width, ef.height))) =
      Except.ok (List.replicate (totalFramesOf optsC8)
        (jsRound ((optsC8.viewport.width : ℚ) * effScale optsC8),
          jsRound ((optsC8.viewport.height : ℚ) * effScale optsC8))) :=
  C8_no_mobile_override decode0 pgStill "u" optsC8 rfl

/-- C8 counterexample: a configuration of width 375 and height 812 is
captured and encoded at effective height 812 (the renderer page is also
configured at height 812), not at the claimed clamped height 667. -/
theorem C8_counterexample :
    (captureVideo decode0 pgStill "u" optsC8).1.viewport = ⟨375, 812⟩ ∧
    (captureVideo decode0 pgStill "u" optsC8).2.1.map
        (fun r => r.gif.map (fun ef => (ef.width, ef.height))) =
      Except.ok [((375 : ℤ), (812 : ℤ))] ∧
    (812 : ℤ) ≠ 667 := by
  refine ⟨rfl, ?_, by decide⟩
  unfold captureVideo
  rw [captureGif_none decode0 pgStill "u" optsC8 rfl]
  have h1 : totalFramesOf optsC8 = 1 := by
    norm_num [totalFramesOf, effDuration, effFps, optsC8]
  have h2 : jsRound ((optsC8.viewport.width : ℚ) * effScale optsC8) = 375 := by
    norm_num [jsRound, effScale, optsC8]
  have h3 : jsRound ((optsC8.viewport.height : ℚ) * effScale optsC8) = 812 := by
    norm_num [jsRound, effScale, optsC8]
  simp [Except.map, encodeGif, encodeFrames_map_dims, frameLoop_fst_length, h1, h2, h3,
    List.replicate]

/-- C9 (amended): every captured still is decoded to raw pixels at the
scaled GIF resolution round(viewport * gifScale) — not at the
configured viewport resolution — and every encoded frame has exactly
those scaled dimensions (frame size equals clip size); the encoded
frame dimensions equal the configured viewport dimensions only when
gifScale is 1, while the default gifScale is 0.5. -/
theorem C9_scaled_decode (decode : Decoder) (frames : List ByteBuf) (vp : ViewportSize)
    (fps scale : ℚ) (ef : EncodedFrame) (hef : ef ∈ encodeGif decode frames vp fps scale) :
    ef.width = jsRound ((vp.width : ℚ) * scale) ∧
    ef.height = jsRound ((vp.height : ℚ) * scale) ∧
    ∃ f ∈ frames,
      ef.indexed =
        applyPalette
          (decode f (jsRound ((vp.width : ℚ) * scale)) (jsRound ((vp.height : ℚ) * scale)))
          (quantize (decode f (jsRound ((vp.width : ℚ) * scale))
            (jsRound ((vp.height : ℚ) * scale))) 256) := by
  unfold encodeGif at hef
  obtain ⟨hw, hh, _, f, hf, _, hidx⟩ := encodeFrames_mem _ _ _ _ frames 0 ef hef
  exact ⟨hw, hh, f, hf, hidx⟩

/-- Witness for C9 at the first (and only) frame written for a single
black still at viewport 2 x 2 and scale 1. -/
theorem C9_witness :
    ef0.width = jsRound ((((2 : ℤ) : ℚ)) * 1) ∧
    ef0.height = jsRound ((((2 : ℤ) : ℚ)) * 1) ∧
    ∃ f ∈ [[(0 : ℕ)]],
      ef0.indexed =
        applyPalette
          (decode0 f (jsRound ((((2 : ℤ) : ℚ)) * 1)) (jsRound ((((2 : ℤ) : ℚ)) * 1)))
          (quantize (decode0 f (jsRound ((((2 : ℤ) : ℚ)) * 1))
            (jsRound ((((2 : ℤ) : ℚ)) * 1))) 256) :=
  C9_scaled_decode decode0 [[0]] ⟨2, 2⟩ 8 1 ef0
    (show ef0 ∈ [ef0] from List.mem_singleton.mpr rfl)

/-- C9 counterexample: at the default gifScale 0.5 a 100 x 80 viewport
yields encoded frames of 50 x 40, not the configured viewport
dimensions 100 x 80. -/
theorem C9_counterexample :
    (encodeGif decode0 [[0]] ⟨100, 80⟩ 8 (1 / 2)).map (fun ef => (ef.width, ef.height)) =
      [((50 : ℤ), (40 : ℤ))] ∧ ¬((50 : ℤ) = 100 ∧ (40 : ℤ) = 80) := by
  constructor
  · simp [encodeGif, encodeFrames_map_dims, List.replicate]
    norm_num [jsRound]
  · decide

/-- C10: when duration, fps and gifScale are all omitted from the
options, captureGif uses the defaults duration 2, fps 8 and gifScale
0.5: the result reports duration 2, captures exactly ceil(2 * 8) = 16
frames, and encodes every frame at the half viewport resolution
round(width * 0.5) by round(height * 0.5). -/
theorem C10_defaults (decode : Decoder) (pg : RenderPage) (url : String) (vp : ViewportSize) :
    (captureGif decode pg url { viewport := vp }).1.map
        (fun r => (r.duration, r.frameCount, r.gif.map (fun ef => (ef.width, ef.height)))) =
      Except.ok (2, 16,
        List.replicate 16
          (jsRound ((vp.width : ℚ) * (1 / 2)), jsRound ((vp.height : ℚ) * (1 / 2)))) := by
  have h16 : totalFramesOf { viewport := vp } = 16 := by
    norm_num [totalFramesOf, effDuration, effFps]
    rfl
  have h2 : effDuration { viewport := vp } = 2 := rfl
  have h3 : effScale { viewport := vp } = 1 / 2 := rfl
  rw [captureGif_none decode pg url { viewport := vp } rfl]
  simp [Except.map, encodeGif, encodeFrames_map_dims, frameLoop_fst_length, h16, h2, h3]
